import Mathlib

/-
Verification of the PubMed fetch-and-classify pipeline (main.py).

The program is a linear pipeline: search for record identifiers, fetch a
detail mapping for them in one batch request, classify each record's
contributor affiliations with two case-insensitive substring pattern sets,
and serialize the resulting rows either to a CSV file or to the console.

Embedding conventions:
  - Python dicts with a fixed set of interesting keys become structures with
    `Option String` fields; `d.get(k, "")` becomes `Option.getD`, while a
    direct subscript `d[k]` (which can raise KeyError) becomes a lookup that
    can return `none`, propagated as a failure.
  - The JSON detail mapping becomes an association list with first-match
    lookup.
  - Raised exceptions become `Except String` / `Option` failure values.
  - Network and file-system effects are oracles supplied in an `Env`;
    the orchestrator additionally returns the list of detail-fetch request
    payloads it issued, so that "a fetch call was attempted" is observable.
  - CSV serialization is abstracted to the sequence of records written
    (header record followed by one record per row); byte-level quoting is
    irrelevant to every claim considered here.
-/

namespace PubmedPipeline

/-- ASCII lower-casing on character codes: the case folding that
`re.IGNORECASE` applies to the ASCII letters of the fixed patterns. -/
def lowerNat (n : Nat) : Nat :=
  if 65 ≤ n && n ≤ 90 then n + 32 else n

/-- Boolean test that `p` is an initial segment of `l`, comparing characters
case-insensitively (character lists). -/
def leadsWithCI : List Char → List Char → Bool
  | [], _ => true
  | _ :: _, [] => false
  | p :: ps, c :: cs =>
    (lowerNat p.toNat == lowerNat c.toNat) && leadsWithCI ps cs

/-- Boolean test that `pat` occurs contiguously inside the second list,
comparing characters case-insensitively. -/
def occursInCI (pat : List Char) : List Char → Bool
  | [] => leadsWithCI pat []
  | c :: cs => leadsWithCI pat (c :: cs) || occursInCI pat cs

/-- Case-insensitive substring test: the semantics of
`re.search(pat, s, re.IGNORECASE)` for one plain alternative of the fixed
ASCII patterns of main.py lines 36-37. -/
def substrCI (pat s : String) : Bool :=
  occursInCI pat.toList s.toList

/-- Semantics of `re.search(r"university|institute|college|lab", s, re.IGNORECASE)`
from main.py line 36: the affiliation text matches the academic pattern set. -/
def isAcademicAff (s : String) : Bool :=
  substrCI "university" s || substrCI "institute" s ||
    substrCI "college" s || substrCI "lab" s

/-- Semantics of `re.search(r"pharma|biotech", s, re.IGNORECASE)` from main.py
line 37: the affiliation text matches the company pattern set. -/
def isCompanyAff (s : String) : Bool :=
  substrCI "pharma" s || substrCI "biotech" s

/-- One contributor entry of a raw record: the `"name"` and `"affiliation"`
keys of the author dict, each possibly missing. -/
structure Author where
  name : Option String
  affiliation : Option String
deriving DecidableEq, Repr

/-- One raw record of the detail mapping: the keys `extract_paper_data`
reads, each possibly missing, plus the `"authors"` list (default `[]`). -/
structure Paper where
  uid : Option String := none
  title : Option String := none
  pubdate : Option String := none
  elocationid : Option String := none
  authors : List Author := []
deriving DecidableEq, Repr

/-- The fixed six-field output unit produced by `extract_paper_data`. -/
structure Row where
  pubmedID : String
  title : String
  pubDate : String
  nonAcademicAuthors : String
  companyAffiliations : String
  correspondingEmail : String
deriving DecidableEq, Repr

/-- `author.get("affiliation", "")` (main.py lines 36-37). -/
def authorAff (a : Author) : String :=
  a.affiliation.getD ""

/-- Evaluate `f` on each element, failing as soon as one application fails:
the semantics of a Python list comprehension whose element expression can
raise, aborting the whole comprehension. -/
def collectSome {α β : Type} (f : α → Option β) : List α → Option (List β)
  | [] => some []
  | x :: xs =>
    match f x, collectSome f xs with
    | some y, some ys => some (y :: ys)
    | _, _ => none

/-- main.py line 36:
`[author["name"] for author in authors if not re.search(academic, author.get("affiliation",""), re.IGNORECASE)]`.
The subscript `author["name"]` is a direct lookup, so a kept author with no
name makes the whole comprehension fail (KeyError). -/
def nonAcademicNames (authors : List Author) : Option (List String) :=
  collectSome (fun a => a.name)
    (authors.filter (fun a => !isAcademicAff (authorAff a)))

/-- main.py line 37:
`[author.get("affiliation", "") for author in authors if re.search(company, author.get("affiliation",""), re.IGNORECASE)]`. -/
def companyAffsOf (authors : List Author) : List String :=
  (authors.filter (fun a => isCompanyAff (authorAff a))).map authorAff

/-- main.py lines 33-46, `extract_paper_data(paper)`: build the six-field row.
All lookups except `author["name"]` default to `""` on a missing key; the
`author["name"]` subscript can raise, modelled by the `none` result. -/
def extract_paper_data (paper : Paper) : Option Row :=
  match nonAcademicNames paper.authors with
  | none => none
  | some names =>
    some {
      pubmedID := paper.uid.getD "",
      title := paper.title.getD "",
      pubDate := paper.pubdate.getD "",
      nonAcademicAuthors := String.intercalate ", " names,
      companyAffiliations := String.intercalate ", " (companyAffsOf paper.authors),
      correspondingEmail := paper.elocationid.getD "" }

/-- main.py line 48: the fixed header of the output table. -/
def fieldnames : List String :=
  ["PubmedID", "Title", "Publication Date", "Non-academic Author(s)",
   "Company Affiliation(s)", "Corresponding Author Email"]

/-- The six column values of a row, in the fixed `fieldnames` order. -/
def rowFields (r : Row) : List String :=
  [r.pubmedID, r.title, r.pubDate, r.nonAcademicAuthors,
   r.companyAffiliations, r.correspondingEmail]

/-- main.py lines 47-59, `save_to_csv(data, filename)`.
With a filename, the file is opened (`fs` is the file-system oracle for the
open) and the header record plus one record per row is written; the written
content is returned as the sequence of records. With no filename, the source
executes `csv.DictWriter(print, fieldnames=fieldnames)`, which raises
`TypeError: argument 1 must have a "write" method` at construction, before
anything is printed; that exception is the `Except.error` result. -/
def save_to_csv (fs : String → Except String Unit) (data : List Row)
    (filename : Option String) : Except String (List (List String)) :=
  match filename with
  | some f =>
    match fs f with
    | Except.error e => Except.error e
    | Except.ok _ => Except.ok (fieldnames :: data.map rowFields)
  | none => Except.error "TypeError: argument 1 must have a write method"

/-- main.py lines 23-31, `fetch_paper_details(pubmed_ids)`: the request
payload is `",".join(pubmed_ids)` — sent unconditionally, also for an empty
id list, where the payload is the empty string. Returns the payload issued
together with the network oracle's response to it. -/
def fetch_paper_details
    (summary : String → Except String (List (String × Paper)))
    (pubmed_ids : List String) :
    String × Except String (List (String × Paper)) :=
  let payload := String.intercalate "," pubmed_ids
  (payload, summary payload)

/-- main.py line 78:
`[extract_paper_data(paper_details[pid]) for pid in pubmed_ids if pid in paper_details]`.
Identifiers absent from the detail mapping are skipped; extraction of a
present record can fail (KeyError on an unnamed non-academic author), which
aborts the whole comprehension. -/
def extractAll (ids : List String) (details : List (String × Paper)) :
    Option (List Row) :=
  collectSome extract_paper_data (ids.filterMap (fun pid => details.lookup pid))

/-- The external world of one run: the outcome of the esearch request, the
esummary response as a function of the joined-id payload, and the outcome of
opening an output path for writing. -/
structure Env where
  search : Except String (List String)
  summary : String → Except String (List (String × Paper))
  fs : String → Except String Unit

/-- Observable outcome of `main`: either the run completed and the table
content (header record and data records) was written, or an exception was
caught by the `except` clause and logged as one error message. -/
inductive MainResult where
  | completed : List (List String) → MainResult
  | loggedError : String → MainResult
deriving DecidableEq, Repr

/-- main.py lines 61-84, `main()`: the `try` block runs search, detail
fetch, extraction, and the table write in sequence; any exception from any
stage is caught by the single `except Exception` clause and logged. The
first component of the result is the list of esummary request payloads
issued during the run. -/
def main (env : Env) (file : Option String) : List String × MainResult :=
  match env.search with
  | Except.error e => ([], MainResult.loggedError e)
  | Except.ok pubmed_ids =>
    let fetched := fetch_paper_details env.summary pubmed_ids
    match fetched.2 with
    | Except.error e => ([fetched.1], MainResult.loggedError e)
    | Except.ok paper_details =>
      match extractAll pubmed_ids paper_details with
      | none => ([fetched.1], MainResult.loggedError "KeyError: name")
      | some extracted_data =>
        match save_to_csv env.fs extracted_data file with
        | Except.error e => ([fetched.1], MainResult.loggedError e)
        | Except.ok content => ([fetched.1], MainResult.completed content)

/-- Process exit status of a run: the Python `main` function returns `None`
on both the success path and the error path (the `except` branch only logs
and falls through, main.py lines 82-83), so the interpreter exits with
status 0 either way. -/
def mainExitCode (env : Env) (file : Option String) : Nat :=
  match (main env file).2 with
  | MainResult.completed _ => 0
  | MainResult.loggedError _ => 0

/- ## Helper lemmas -/

/-- A successful `collectSome` preserves the length of the list. -/
theorem collectSome_length {α β : Type} (f : α → Option β) :
    ∀ (l : List α) (ys : List β), collectSome f l = some ys →
      ys.length = l.length := by
  intro l
  induction l with
  | nil =>
    intro ys h
    unfold collectSome at h
    cases h
    rfl
  | cons x xs ih =>
    intro ys h
    unfold collectSome at h
    cases hfx : f x with
    | none => rw [hfx] at h; cases h
    | some b =>
      cases hrest : collectSome f xs with
      | none => rw [hfx, hrest] at h; cases h
      | some bs =>
        rw [hfx, hrest] at h
        cases h
        simp [ih bs hrest]

/-- Every element of a successful `collectSome` result comes from an element
of the input list. -/
theorem collectSome_src {α β : Type} (f : α → Option β) :
    ∀ (l : List α) (ys : List β), collectSome f l = some ys →
      ∀ y ∈ ys, ∃ x ∈ l, f x = some y := by
  intro l
  induction l with
  | nil =>
    intro ys h
    unfold collectSome at h
    cases h
    intro y hy
    cases hy
  | cons x xs ih =>
    intro ys h y hy
    unfold collectSome at h
    cases hfx : f x with
    | none => rw [hfx] at h; cases h
    | some b =>
      cases hrest : collectSome f xs with
      | none => rw [hfx, hrest] at h; cases h
      | some bs =>
        rw [hfx, hrest] at h
        cases h
        rcases List.mem_cons.mp hy with rfl | hy₂
        · exact ⟨x, List.mem_cons_self x xs, hfx⟩
        · obtain ⟨x₂, hx₂, hfx₂⟩ := ih bs hrest y hy₂
          exact ⟨x₂, List.mem_cons_of_mem x hx₂, hfx₂⟩

/-- Every input element's image appears in a successful `collectSome` result. -/
theorem collectSome_tgt {α β : Type} (f : α → Option β) :
    ∀ (l : List α) (ys : List β), collectSome f l = some ys →
      ∀ x ∈ l, ∀ y, f x = some y → y ∈ ys := by
  intro l
  induction l with
  | nil =>
    intro ys _ x hx
    cases hx
  | cons x xs ih =>
    intro ys h z hz y hfz
    unfold collectSome at h
    cases hfx : f x with
    | none => rw [hfx] at h; cases h
    | some b =>
      cases hrest : collectSome f xs with
      | none => rw [hfx, hrest] at h; cases h
      | some bs =>
        rw [hfx, hrest] at h
        cases h
        rcases List.mem_cons.mp hz with rfl | hz₂
        · rw [hfz] at hfx
          cases hfx
          exact List.mem_cons_self y bs
        · exact List.mem_cons_of_mem b (ih bs hrest z hz₂ y hfz)

/-- `collectSome` succeeds when `f` succeeds on every element. -/
theorem collectSome_total {α β : Type} (f : α → Option β) :
    ∀ l : List α, (∀ x ∈ l, (f x).isSome = true) →
      ∃ ys, collectSome f l = some ys := by
  intro l
  induction l with
  | nil => exact fun _ => ⟨[], rfl⟩
  | cons x xs ih =>
    intro h
    obtain ⟨ys, hys⟩ := ih fun a ha => h a (List.mem_cons_of_mem x ha)
    obtain ⟨y, hy⟩ := Option.isSome_iff_exists.mp (h x (List.mem_cons_self x xs))
    exact ⟨y :: ys, by simp [collectSome, hy, hys]⟩

/-- `filterMap` keeps exactly the elements on which `f` succeeds. -/
theorem length_filterMap_eq_length_filter {α β : Type} (f : α → Option β)
    (l : List α) :
    (l.filterMap f).length = (l.filter (fun x => (f x).isSome)).length := by
  induction l with
  | nil => rfl
  | cons x xs ih =>
    cases hfx : f x <;>
      simp [List.filterMap_cons, hfx, List.filter_cons, ih]

/-- A successful association-list lookup names a pair of the list. -/
theorem lookup_mem {β : Type} :
    ∀ (details : List (String × β)) (pid : String) (q : β),
      details.lookup pid = some q → (pid, q) ∈ details := by
  intro details
  induction details with
  | nil => intro pid q h; cases h
  | cons kv rest ih =>
    intro pid q h
    obtain ⟨k, b⟩ := kv
    rw [List.lookup] at h
    by_cases hk : pid = k
    · subst hk
      simp at h
      subst h
      exact List.mem_cons_self (pid, b) rest
    · have hbeq : (pid == k) = false := beq_eq_false_iff_ne.mpr hk
      rw [hbeq] at h
      exact List.mem_cons_of_mem (k, b) (ih pid q h)

/-- The identifier column of a produced row is the record's `uid` field,
defaulted to the empty string. -/
theorem extract_pubmedID (paper : Paper) (r : Row)
    (h : extract_paper_data paper = some r) :
    r.pubmedID = paper.uid.getD "" := by
  unfold extract_paper_data at h
  cases hn : nonAcademicNames paper.authors with
  | none => rw [hn] at h; cases h
  | some names =>
    rw [hn] at h
    cases h
    rfl

/- ## Claim theorems -/

/-- C2, counterexample: the claim says `extract_paper_data` never fails on
any semi-structured record, but a record whose single contributor entry has
no name (and no affiliation, hence non-academic) makes the source raise
`KeyError: 'name'` at `author["name"]` — modelled as the `none` result. -/
theorem claim_C2_counterexample :
    extract_paper_data { authors := [{ name := none, affiliation := none }] } =
      none := rfl

/-- C2, amended: `extract_paper_data` returns a row for every record in
which each contributor entry whose affiliation fails the academic pattern
(the entries the non-academic comprehension keeps) carries a name; all other
field lookups use default-on-missing semantics, but the contributor-name
lookup is a direct subscript and fails when the name is missing. -/
theorem claim_C2_total_when_named (paper : Paper)
    (h : ∀ a ∈ paper.authors, isAcademicAff (authorAff a) = false →
      (a.name).isSome = true) :
    (extract_paper_data paper).isSome = true := by
  obtain ⟨ns, hns⟩ := collectSome_total (fun a => a.name)
    (paper.authors.filter (fun a => !isAcademicAff (authorAff a)))
    (by
      intro a ha
      have hmem := List.mem_filter.mp ha
      exact h a hmem.1 (by simpa using hmem.2))
  unfold extract_paper_data nonAcademicNames
  rw [hns]
  rfl

/-- C2 witness: a record with a named contributor and an unnamed contributor
whose affiliation matches the academic pattern extracts successfully. -/
theorem claim_C2_total_when_named_witness :
    (extract_paper_data { authors :=
      [{ name := some "A", affiliation := none },
       { name := none, affiliation := some "MIT Institute" }] }).isSome = true :=
  claim_C2_total_when_named _ (by decide)

/-- C3: with the destination omitted, the source constructs
`csv.DictWriter(print, ...)`, which raises `TypeError` before printing
anything, so no row is ever rendered to the console; in a full run the
orchestrator catches and logs that error instead of completing. -/
theorem claim_C3_console_write_raises :
    save_to_csv (fun _ => Except.ok ()) [] none =
      Except.error "TypeError: argument 1 must have a write method" ∧
    (main { search := Except.ok [], summary := fun _ => Except.ok [],
            fs := fun _ => Except.ok () } none).2 =
      MainResult.loggedError "TypeError: argument 1 must have a write method" :=
  ⟨rfl, rfl⟩

/-- C6: a contributor whose affiliation field is absent or the empty string
is counted as non-academic (their name appears in the non-academic names
list whenever the extraction of that list succeeds) and contributes nothing
to the company-affiliations list. -/
theorem claim_C6_missing_affiliation (l₁ l₂ : List Author) (a : Author)
    (n : String) (ns : List String)
    (hname : a.name = some n)
    (haff : a.affiliation = none ∨ a.affiliation = some "")
    (hns : nonAcademicNames (l₁ ++ a :: l₂) = some ns) :
    n ∈ ns ∧ companyAffsOf (l₁ ++ a :: l₂) = companyAffsOf (l₁ ++ l₂) := by
  have haff' : authorAff a = "" := by
    rcases haff with h | h <;> simp [authorAff, h]
  have hacad : isAcademicAff (authorAff a) = false := by rw [haff']; decide
  have hcomp : isCompanyAff (authorAff a) = false := by rw [haff']; decide
  constructor
  · unfold nonAcademicNames at hns
    have hmem : a ∈ (l₁ ++ a :: l₂).filter
        (fun a => !isAcademicAff (authorAff a)) :=
      List.mem_filter.mpr
        ⟨List.mem_append.mpr (Or.inr (List.mem_cons_self a l₂)),
         by simp [hacad]⟩
    exact collectSome_tgt _ _ ns hns a hmem n hname
  · simp [companyAffsOf, List.filter_append, List.filter_cons, hcomp]

/-- C6 witness: a single contributor named "John" with no affiliation field
lands in the non-academic names list and adds nothing to the company list. -/
theorem claim_C6_missing_affiliation_witness :
    "John" ∈ ["John"] ∧
    companyAffsOf [{ name := some "John", affiliation := none }] =
      companyAffsOf [] :=
  claim_C6_missing_affiliation [] [] { name := some "John", affiliation := none }
    "John" ["John"] rfl (Or.inl rfl) rfl

/-- C7: a contributor whose affiliation is
"Dept. of Chemistry, ABC Biotech Inc." has that full affiliation string in
the company-affiliations list (the text matches "biotech",
case-insensitively) and their name in the non-academic names list (the text
matches no academic-pattern substring). -/
theorem claim_C7_biotech_affiliation (l₁ l₂ : List Author) (a : Author)
    (n : String) (ns : List String)
    (haff : a.affiliation = some "Dept. of Chemistry, ABC Biotech Inc.")
    (hname : a.name = some n)
    (hns : nonAcademicNames (l₁ ++ a :: l₂) = some ns) :
    "Dept. of Chemistry, ABC Biotech Inc." ∈ companyAffsOf (l₁ ++ a :: l₂) ∧
    n ∈ ns := by
  have haff' : authorAff a = "Dept. of Chemistry, ABC Biotech Inc." := by
    simp [authorAff, haff]
  have hacad : isAcademicAff (authorAff a) = false := by rw [haff']; decide
  have hcomp : isCompanyAff (authorAff a) = true := by rw [haff']; decide
  constructor
  · have hmem : a ∈ (l₁ ++ a :: l₂).filter
        (fun a => isCompanyAff (authorAff a)) :=
      List.mem_filter.mpr
        ⟨List.mem_append.mpr (Or.inr (List.mem_cons_self a l₂)), hcomp⟩
    have hmap := List.mem_map_of_mem authorAff hmem
    rw [haff'] at hmap
    exact hmap
  · unfold nonAcademicNames at hns
    have hmem : a ∈ (l₁ ++ a :: l₂).filter
        (fun a => !isAcademicAff (authorAff a)) :=
      List.mem_filter.mpr
        ⟨List.mem_append.mpr (Or.inr (List.mem_cons_self a l₂)),
         by simp [hacad]⟩
    exact collectSome_tgt _ _ ns hns a hmem n hname

/-- C7 witness: a single contributor "Jane" with the biotech affiliation. -/
theorem claim_C7_biotech_affiliation_witness :
    "Dept. of Chemistry, ABC Biotech Inc." ∈ companyAffsOf
      [{ name := some "Jane",
         affiliation := some "Dept. of Chemistry, ABC Biotech Inc." }] ∧
    "Jane" ∈ ["Jane"] :=
  claim_C7_biotech_affiliation [] []
    { name := some "Jane",
      affiliation := some "Dept. of Chemistry, ABC Biotech Inc." }
    "Jane" ["Jane"] rfl rfl rfl

/-- C8: a contributor whose affiliation is "Stanford University" (matching
the academic pattern "university" and no company pattern) contributes
nothing to either the non-academic names list or the company-affiliations
list: removing the contributor leaves both lists unchanged. -/
theorem claim_C8_university_excluded (l₁ l₂ : List Author) (a : Author)
    (haff : a.affiliation = some "Stanford University") :
    nonAcademicNames (l₁ ++ a :: l₂) = nonAcademicNames (l₁ ++ l₂) ∧
    companyAffsOf (l₁ ++ a :: l₂) = companyAffsOf (l₁ ++ l₂) := by
  have haff' : authorAff a = "Stanford University" := by simp [authorAff, haff]
  have hacad : isAcademicAff (authorAff a) = true := by rw [haff']; decide
  have hcomp : isCompanyAff (authorAff a) = false := by rw [haff']; decide
  constructor
  · simp [nonAcademicNames, List.filter_append, List.filter_cons, hacad]
  · simp [companyAffsOf, List.filter_append, List.filter_cons, hcomp]

/-- C8 witness: alongside another contributor, "Alice" at
"Stanford University" changes neither output list. -/
theorem claim_C8_university_excluded_witness :
    nonAcademicNames [{ name := some "Bob", affiliation := none },
      { name := some "Alice", affiliation := some "Stanford University" }] =
      nonAcademicNames [{ name := some "Bob", affiliation := none }] ∧
    companyAffsOf [{ name := some "Bob", affiliation := none },
      { name := some "Alice", affiliation := some "Stanford University" }] =
      companyAffsOf [{ name := some "Bob", affiliation := none }] :=
  claim_C8_university_excluded [{ name := some "Bob", affiliation := none }] []
    { name := some "Alice", affiliation := some "Stanford University" } rfl

/-- C1, counterexample: with the search step returning zero identifiers, the
claim says no detail-fetch call is attempted, but the run issues exactly one
esummary request, with the empty joined-id payload. -/
theorem claim_C1_counterexample :
    (main { search := Except.ok [], summary := fun _ => Except.ok [],
            fs := fun _ => Except.ok () } (some "out.csv")).1 = [""] ∧
    ("" :: []) ≠ ([] : List String) :=
  ⟨rfl, by decide⟩

/-- C1, amended: when the search step returns zero identifiers, the
detail-fetch call IS still attempted, once, with the empty joined-id
payload (the source calls `fetch_paper_details` unconditionally); when that
request and the file open succeed, the output table written to the file
destination contains the header only and zero data rows. -/
theorem claim_C1_empty_search (env : Env) (f : String)
    (d : List (String × Paper))
    (hs : env.search = Except.ok [])
    (hd : env.summary "" = Except.ok d)
    (hf : env.fs f = Except.ok ()) :
    (main env (some f)).1 = [""] ∧
    (main env (some f)).2 = MainResult.completed [fieldnames] := by
  have hjoin : String.intercalate "," ([] : List String) = "" := rfl
  constructor <;>
    simp [main, fetch_paper_details, hs, hjoin, hd, extractAll,
      List.filterMap_nil, collectSome, save_to_csv, hf, List.map_nil]

/-- C1 witness: a concrete empty-search run issues the empty-payload fetch
and completes with a header-only table. -/
theorem claim_C1_empty_search_witness :
    (main { search := Except.ok [], summary := fun _ => Except.ok [],
            fs := fun _ => Except.ok () } (some "papers.csv")).1 = [""] ∧
    (main { search := Except.ok [], summary := fun _ => Except.ok [],
            fs := fun _ => Except.ok () } (some "papers.csv")).2 =
      MainResult.completed [fieldnames] :=
  claim_C1_empty_search _ "papers.csv" [] rfl rfl rfl

/-- C4, counterexample: the identifier column of a row is copied from the
record's `uid` field, not from the search identifier, so a detail mapping
whose record carries a foreign `uid` puts an identifier in the output that
the search step never returned: searching gave only "1", yet the output
data row's identifier is "2". -/
theorem claim_C4_counterexample :
    (main { search := Except.ok ["1"],
            summary := fun _ => Except.ok [("1", { uid := some "2" })],
            fs := fun _ => Except.ok () } (some "out.csv")).2 =
      MainResult.completed [fieldnames, ["2", "", "", "", "", ""]] ∧
    "2" ∉ (["1"] : List String) :=
  ⟨rfl, by decide⟩

/-- C4, amended: whenever every record of every detail mapping the summary
endpoint can return carries its own key as its `uid` field (as the real
esummary responses do), every data row of a completed run's output table
has, in its identifier column, an identifier that originated from the
search result. -/
theorem claim_C4_provenance (env : Env) (f : String) (ids : List String)
    (content : List (List String))
    (hs : env.search = Except.ok ids)
    (hcons : ∀ payload details, env.summary payload = Except.ok details →
      ∀ p q, (p, q) ∈ details → q.uid = some p)
    (hrun : (main env (some f)).2 = MainResult.completed content) :
    ∀ line ∈ content.drop 1, ∃ pid ∈ ids, line.head? = some pid := by
  unfold main at hrun
  rw [hs] at hrun
  dsimp only [fetch_paper_details] at hrun
  cases hsum : env.summary (String.intercalate "," ids) with
  | error e => rw [hsum] at hrun; simp at hrun
  | ok details =>
    rw [hsum] at hrun
    dsimp only at hrun
    cases hext : extractAll ids details with
    | none => rw [hext] at hrun; simp at hrun
    | some rows =>
      rw [hext] at hrun
      dsimp only at hrun
      unfold save_to_csv at hrun
      dsimp only at hrun
      cases hfs : env.fs f with
      | error e => rw [hfs] at hrun; simp at hrun
      | ok u =>
        cases u
        rw [hfs] at hrun
        simp only [MainResult.completed.injEq] at hrun
        subst hrun
        intro line hline
        simp only [List.drop_succ_cons, List.drop_zero] at hline
        obtain ⟨r, hr, rfl⟩ := List.mem_map.mp hline
        obtain ⟨paper, hpaper, hextr⟩ :=
          collectSome_src extract_paper_data _ rows hext r hr
        obtain ⟨pid, hpid, hlook⟩ := List.mem_filterMap.mp hpaper
        have huid : paper.uid = some pid :=
          hcons _ details hsum pid paper (lookup_mem details pid paper hlook)
        refine ⟨pid, hpid, ?_⟩
        have hid := extract_pubmedID paper r hextr
        rw [huid] at hid
        simp [rowFields, hid]

/-- C4 witness: a concrete uid-consistent run whose single data row's
identifier comes from the search result. -/
theorem claim_C4_provenance_witness :
    ∃ pid ∈ (["7"] : List String),
      (["7", "", "", "", "", ""] : List String).head? = some pid :=
  claim_C4_provenance
    { search := Except.ok ["7"],
      summary := fun _ => Except.ok [("7", { uid := some "7" })],
      fs := fun _ => Except.ok () }
    "out.csv" ["7"] [fieldnames, ["7", "", "", "", "", ""]] rfl
    (by
      intro payload details hdet p q hpq
      cases hdet
      simp at hpq
      rw [hpq.1, hpq.2])
    rfl
    ["7", "", "", "", "", ""] (by simp)

/-- C5: for a non-empty search result and any detail mapping, a successful
extraction yields exactly one row per search identifier present as a key of
the detail mapping — hence at most one row per search identifier — and an
identifier absent from the detail mapping contributes no row and causes no
failure (deleting it from the search result leaves the extraction result
unchanged). -/
theorem claim_C5_row_count (ids l₁ l₂ : List String) (pid : String)
    (details : List (String × Paper)) (rows : List Row)
    (hne : ids ≠ [])
    (h : extractAll ids details = some rows)
    (habsent : details.lookup pid = none) :
    rows.length =
      (ids.filter (fun i => (details.lookup i).isSome)).length ∧
    rows.length ≤ ids.length ∧
    extractAll (l₁ ++ pid :: l₂) details = extractAll (l₁ ++ l₂) details := by
  have hlen : rows.length = (ids.filterMap (fun i => details.lookup i)).length :=
    collectSome_length extract_paper_data _ rows h
  refine ⟨?_, ?_, ?_⟩
  · rw [hlen]
    exact length_filterMap_eq_length_filter _ ids
  · rw [hlen, length_filterMap_eq_length_filter _ ids]
    exact List.length_filter_le _ ids
  · unfold extractAll
    rw [List.filterMap_append, List.filterMap_append, List.filterMap_cons,
      habsent]

/-- C5 witness: search returned ["1", "2"], the detail mapping only knows
"1", extraction succeeds with exactly one row. -/
theorem claim_C5_row_count_witness :
    ([({ pubmedID := "1", title := "", pubDate := "",
         nonAcademicAuthors := "", companyAffiliations := "",
         correspondingEmail := "" } : Row)]).length =
      ((["1", "2"] : List String).filter
        (fun i => (([("1", ({ uid := some "1" } : Paper))].lookup i)).isSome)).length ∧
    ([({ pubmedID := "1", title := "", pubDate := "",
         nonAcademicAuthors := "", companyAffiliations := "",
         correspondingEmail := "" } : Row)]).length ≤
      (["1", "2"] : List String).length ∧
    extractAll (["1"] ++ "2" :: []) [("1", ({ uid := some "1" } : Paper))] =
      extractAll (["1"] ++ []) [("1", ({ uid := some "1" } : Paper))] :=
  claim_C5_row_count ["1", "2"] ["1"] [] "2"
    [("1", { uid := some "1" })]
    [{ pubmedID := "1", title := "", pubDate := "",
       nonAcademicAuthors := "", companyAffiliations := "",
       correspondingEmail := "" }]
    (by decide) rfl rfl

/-- C9: every failure of the search step, the detail-fetch step, or the
table-write step is caught at the outermost level and turned into a single
logged error message, and the orchestrator itself always terminates in one
of the two outcomes (completed or logged) — it never propagates an
exception. -/
theorem claim_C9_errors_caught (env : Env) (file : Option String) :
    ((∃ c, (main env file).2 = MainResult.completed c) ∨
      (∃ e, (main env file).2 = MainResult.loggedError e)) ∧
    (∀ e, env.search = Except.error e →
      (main env file).2 = MainResult.loggedError e) ∧
    (∀ ids e, env.search = Except.ok ids →
      env.summary (String.intercalate "," ids) = Except.error e →
      (main env file).2 = MainResult.loggedError e) ∧
    (∀ ids details rows e, env.search = Except.ok ids →
      env.summary (String.intercalate "," ids) = Except.ok details →
      extractAll ids details = some rows →
      save_to_csv env.fs rows file = Except.error e →
      (main env file).2 = MainResult.loggedError e) := by
  refine ⟨?_, ?_, ?_, ?_⟩
  · unfold main
    cases hs : env.search with
    | error e => exact Or.inr ⟨e, rfl⟩
    | ok ids =>
      dsimp only [fetch_paper_details]
      cases hsum : env.summary (String.intercalate "," ids) with
      | error e => exact Or.inr ⟨e, rfl⟩
      | ok details =>
        dsimp only
        cases hext : extractAll ids details with
        | none => exact Or.inr ⟨"KeyError: name", rfl⟩
        | some rows =>
          dsimp only
          cases hsave : save_to_csv env.fs rows file with
          | error e => exact Or.inr ⟨e, rfl⟩
          | ok c => exact Or.inl ⟨c, rfl⟩
  · intro e he
    simp [main, he]
  · intro ids e hs hsum
    simp [main, fetch_paper_details, hs, hsum]
  · intro ids details rows e hs hsum hext hsave
    simp [main, fetch_paper_details, hs, hsum, hext, hsave]

/-- C9 witness: a run whose search step fails with "network down" ends as a
single logged error. -/
theorem claim_C9_errors_caught_witness :
    (main { search := Except.error "network down",
            summary := fun _ => Except.ok [],
            fs := fun _ => Except.ok () } none).2 =
      MainResult.loggedError "network down" :=
  (claim_C9_errors_caught
    { search := Except.error "network down",
      summary := fun _ => Except.ok [],
      fs := fun _ => Except.ok () } none).2.1 "network down" rfl

/-- C10: the process exit status is 0 for every run, successful or failed —
the `except` branch only logs and falls through, so `main` returns normally
on both paths; in particular a concrete failed run and a concrete
successful run exit identically. -/
theorem claim_C10_uniform_exit :
    (∀ env file, mainExitCode env file = 0) ∧
    mainExitCode { search := Except.error "boom",
                   summary := fun _ => Except.ok [],
                   fs := fun _ => Except.ok () } none =
      mainExitCode { search := Except.ok [],
                     summary := fun _ => Except.ok [],
                     fs := fun _ => Except.ok () } (some "out.csv") ∧
    (main { search := Except.error "boom", summary := fun _ => Except.ok [],
            fs := fun _ => Except.ok () } none).2 =
      MainResult.loggedError "boom" ∧
    (main { search := Except.ok [], summary := fun _ => Except.ok [],
            fs := fun _ => Except.ok () } (some "out.csv")).2 =
      MainResult.completed [fieldnames] := by
  refine ⟨?_, rfl, rfl, rfl⟩
  intro env file
  unfold mainExitCode
  cases (main env file).2 <;> rfl

end PubmedPipeline
